import Mathlib

/-!
Shallow embedding of the CallRail data-extractor core (src/utils/retry_handler.py,
src/processors/base_processor.py, src/processors/calls_processor.py,
src/config/settings.py, src/config/endpoints.py, src/master_downloader.py,
src/models/extended_models.py), together with theorems settling the frozen
claims about it.  Machine behaviour that a claim needs (retry loop, batch
window loop, accumulation, parameter building, endpoint validation) is
translated function-by-function from the Python source; network effects are
made explicit parameters (an "outcomes" function standing for what each
fetch returns or raises).
-/

namespace CallRail

/-! ### Error taxonomy (src/callrail_api/exceptions.py)

The client raises `RateLimitError`, `ServerError`, `AuthenticationError`,
`NotFoundError`, `ValidationError` and the base `CallRailAPIException`
(modelled as `other`); connection-level failures from the requests library
(`ConnectionError`, `Timeout`, `ChunkedEncodingError`) are kept as separate
constructors because the retry decorator lists them individually.
`rateLimit` carries the optional retry-after duration a rate-limit response
may advertise (seconds, an integer header in the source). -/
inductive ApiError where
  | rateLimit (retryAfter : Option Nat)
  | serverError (status : Nat)
  | connectionError
  | timeout
  | chunkedEncoding
  | authentication
  | notFound
  | validation
  | other
  deriving Repr, DecidableEq

/-- Membership in the `retry_if_exception_type` tuple of
`RetryHandler.get_retry_decorator` (src/utils/retry_handler.py lines 65-71):
`RateLimitError, ServerError, ConnectionError, Timeout, ChunkedEncodingError`. -/
def isRetryableError : ApiError → Bool
  | .rateLimit _ => true
  | .serverError _ => true
  | .connectionError => true
  | .timeout => true
  | .chunkedEncoding => true
  | _ => false

/-! ### Retry configuration (src/config/settings.py, `RetryConfig`)

Defaults with no environment overrides: `max_attempts = 3`,
`base_delay = 1.0`, `max_delay = 60.0`, `exponential_base = 2.0`.
All delay values are integral, so `Nat` suffices. -/

def retryMaxAttempts : Nat := 3
def retryBaseDelay : Nat := 1
def retryMaxDelay : Nat := 60
def retryExponentialBase : Nat := 2

/-- The wait computed by tenacity's
`wait_exponential(multiplier=base_delay, max=max_delay, exp_base=exponential_base)`
for a given (1-based) attempt number: `multiplier * exp_base ** attempt_number`
clamped above by `max` (the default lower clamp is 0, a no-op on `Nat`). -/
def waitExponential (attemptNumber : Nat) : Nat :=
  min (retryBaseDelay * retryExponentialBase ^ attemptNumber) retryMaxDelay

/-- Observable trace of one `execute_with_retry` run: the final outcome
(`reraise=True` re-raises the last exception on exhaustion), the number of
attempts actually made, and the waits slept between consecutive attempts. -/
structure RetryTrace (α : Type) where
  result : Except ApiError α
  attempts : Nat
  waits : List Nat
  deriving Repr

/-- The tenacity loop produced by `RetryHandler.get_retry_decorator`
(src/utils/retry_handler.py lines 56-74): run the operation; on success
return; on an exception not in the retry tuple re-raise at once; on a
retryable exception either stop (attempt bound reached, re-raise the last
exception since `reraise=True`) or wait `waitfn attempt` and try again.
`op` maps the 1-based attempt number to that attempt's outcome; `fuel`
counts the retries still allowed (`max_attempts - attempts_made_so_far`). -/
def retryGo (waitfn : Nat → Nat) (op : Nat → Except ApiError α) :
    Nat → Nat → RetryTrace α
  | attempt, 0 =>
    match op attempt with
    | .ok v => ⟨.ok v, attempt, []⟩
    | .error e => ⟨.error e, attempt, []⟩
  | attempt, fuel + 1 =>
    match op attempt with
    | .ok v => ⟨.ok v, attempt, []⟩
    | .error e =>
      if isRetryableError e then
        let rest := retryGo waitfn op (attempt + 1) fuel
        ⟨rest.result, rest.attempts, waitfn attempt :: rest.waits⟩
      else
        ⟨.error e, attempt, []⟩

/-- `RetryHandler.execute_with_retry` with a configurable attempt bound
(`stop_after_attempt maxAttempts`): attempts start at 1 and at most
`maxAttempts - 1` retries may follow. -/
def executeWithRetryN (maxAttempts : Nat) (op : Nat → Except ApiError α) :
    RetryTrace α :=
  retryGo waitExponential op 1 (maxAttempts - 1)

/-- `RetryHandler.execute_with_retry` at the default configuration
(`max_attempts = 3`). -/
def executeWithRetry (op : Nat → Except ApiError α) : RetryTrace α :=
  executeWithRetryN retryMaxAttempts op

/-- Outcome of `handle_rate_limit` (src/utils/retry_handler.py lines 94-117):
the seconds it sleeps, and whether it raises `RateLimitError` afterwards. -/
structure RateLimitAction where
  wait : Option Nat
  raised : Bool
  deriving Repr, DecidableEq

/-- `handle_rate_limit(response)`: on a 429 response whose Retry-After header
parses as an integer, sleep that many seconds and return (no exception);
on a 429 response without a parseable Retry-After, sleep the 60-second
default and raise `RateLimitError`; on any other status do nothing.
`retryAfterHeader` is the parsed header (`none` covers a missing header and
an unparseable one, which the source treats alike via `except ValueError`). -/
def handleRateLimit (statusCode : Nat) (retryAfterHeader : Option Nat) :
    RateLimitAction :=
  if statusCode = 429 then
    match retryAfterHeader with
    | some t => { wait := some t, raised := false }
    | none => { wait := some 60, raised := true }
  else { wait := none, raised := false }

/-! ### Batch orchestration (src/processors/base_processor.py)

`process_in_batches` walks `while offset < limit`, fetching a window of
`current_batch_size = min(batch_size, limit - offset)` records each turn
and advancing `offset += current_batch_size`.  The loop is total only for
`batch_size > 0` (for `batch_size = 0` the Python loop never advances);
the embedding uses `limit` as structural fuel, which is enough iterations
whenever `batch_size > 0`, the only regime the theorems address. -/

/-- Windows `(offset, current_batch_size)` produced by the
`process_in_batches` loop, starting at `offset`, with `fuel` remaining
iterations allowed. -/
def windowsFromFuel (bs : Nat) : Nat → Nat → Nat → List (Nat × Nat)
  | 0, _, _ => []
  | fuel + 1, limit, offset =>
    if offset < limit then
      (offset, min bs (limit - offset)) ::
        windowsFromFuel bs fuel limit (offset + min bs (limit - offset))
    else []

/-- All windows of one endpoint run: the loop of `process_in_batches`
from `offset = 0`. -/
def windows (limit bs : Nat) : List (Nat × Nat) :=
  windowsFromFuel bs limit limit 0

/-- The body of `process_in_batches` for successive windows: batch number
`n` (1-based) either fetches and processes its records (`outcomes n = some
recs`, yielding `(recs, 0)`) or raises anywhere inside the `try` block
(`outcomes n = none`, caught and yielding `([], 1)`); either way the loop
continues with the next window.  `outcomes` abstracts the network: batch
`n` runs `fetch_batch` at the n-th window's offset and size. -/
def batchResults (outcomes : Nat → Option (List α)) :
    Nat → List (Nat × Nat) → List (List α × Nat)
  | _, [] => []
  | n, _ :: rest =>
    (match outcomes n with
     | some recs => (recs, 0)
     | none => ([], 1)) :: batchResults outcomes (n + 1) rest

/-- `process_in_batches(limit, batch_size)` as the list of yielded
`(processed_records, batch_errors)` pairs, batch numbers starting at 1. -/
def processInBatches (outcomes : Nat → Option (List α)) (limit bs : Nat) :
    List (List α × Nat) :=
  batchResults outcomes 1 (windows limit bs)

/-- The consumer loop of `process_endpoint` (lines 74-89): extend
`all_records`, add `batch_errors`, and stop as soon as
`len(all_records) >= actual_limit`, truncating to the limit; unconsumed
batches contribute nothing. -/
def accumulateBatches (limit : Nat) :
    List (List α × Nat) → List α → Nat → List α × Nat
  | [], acc, errs => (acc, errs)
  | (recs, e) :: rest, acc, errs =>
    let acc2 := acc ++ recs
    let errs2 := errs + e
    if limit ≤ acc2.length then (acc2.take limit, errs2)
    else accumulateBatches limit rest acc2 errs2

/-- Result dictionary built by `process_endpoint` (wall-clock `total_time`
is not modelled; no claim concerns it). -/
structure EndpointResult where
  endpoint : String
  records_processed : Nat
  errors : Nat
  csv_file : String
  success : Bool
  error_message : Option String := none
  deriving Repr, DecidableEq

/-- Path returned by `csv_writer.write_records` (src/utils/csv_writer.py:
`os.path.join(self.output_dir, f"{endpoint_name}.csv")` with the default
`data` directory). -/
def csvPath (name : String) : String :=
  "data/" ++ name ++ ".csv"

/-- The happy path of `process_endpoint` after the limit and batch size
have been resolved (lines 67-119): accumulate batches, write a CSV only
when records were accumulated, and report
`success = len(all_records) > 0 or error_count == 0`. -/
def processEndpoint (name : String) (outcomes : Nat → Option (List α))
    (limit bs : Nat) : EndpointResult :=
  let acc := accumulateBatches limit (processInBatches outcomes limit bs) [] 0
  { endpoint := name
    records_processed := acc.1.length
    errors := acc.2
    csv_file := if acc.1.length > 0 then csvPath name else ""
    success := decide (acc.1.length > 0) || decide (acc.2 = 0) }

/-- The `except` branch of `process_endpoint` (lines 121-134): an exception
escaping the `try` block yields a fixed failure result. -/
def processEndpointError (name msg : String) : EndpointResult :=
  { endpoint := name
    records_processed := 0
    errors := 1
    csv_file := ""
    success := false
    error_message := some msg }

/-! ### Default-parameter resolution (src/processors/base_processor.py
lines 60-62 and src/config/settings.py)

`actual_limit = limit or self.max_records` and
`actual_batch_size = batch_size or self.batch_size`: Python `or` replaces
both `None` and `0` (falsy) by the default.  Defaults with no environment
overrides: `APIConfig.max_records_per_endpoint = 100`,
`BatchConfig.default_batch_size = 100`. -/

def maxRecordsPerEndpoint : Nat := 100
def defaultBatchSize : Nat := 100

/-- Python `x or default` on an `Optional[int]`: `None` and `0` are falsy. -/
def pyOrDefault (x : Option Nat) (dflt : Nat) : Nat :=
  match x with
  | none => dflt
  | some n => if n = 0 then dflt else n

/-- `process_endpoint(limit, batch_size)` including the default
resolution of its two optional arguments. -/
def processEndpointTop (name : String) (outcomes : Nat → Option (List α))
    (limit batchSize : Option Nat) : EndpointResult :=
  processEndpoint name outcomes (pyOrDefault limit maxRecordsPerEndpoint)
    (pyOrDefault batchSize defaultBatchSize)

/-! ### Record processing (src/processors/base_processor.py lines 244-264)

`process_records` walks the fetched records in order, attempting
`create_model_instance` (plus the `__dict__` conversion) on each; any
exception in that attempt is caught and the raw record appended instead.
The fallible normalization attempt is abstracted as
`normalize : α → Option α` (`none` = the attempt raised). -/

/-- `process_records(records)`: per record, the normalized form when the
attempt succeeds, the raw record unmodified when it fails. -/
def processRecords (normalize : α → Option α) : List α → List α
  | [] => []
  | r :: rest =>
    (match normalize r with
     | some p => p
     | none => r) :: processRecords normalize rest

/-! ### Endpoint catalog (src/config/endpoints.py) -/

/-- The `EndpointConfig` dataclass with its defaults
(`supports_pagination=True`, `pagination_type="offset"`, `max_per_page=250`,
`requires_account_id=True`, `requires_company_id=False`). -/
structure EndpointConfig where
  name : String
  path : String
  fields : List String
  optionalFields : List String
  supportsPagination : Bool := true
  paginationType : String := "offset"
  maxPerPage : Nat := 250
  requiresAccountId : Bool := true
  requiresCompanyId : Bool := false
  deriving Repr, DecidableEq

def accountsConfig : EndpointConfig :=
  { name := "accounts"
    path := "/v3/a.json"
    fields := ["id", "name", "created_at"]
    optionalFields :=
      ["numeric_id", "inbound_recording_enabled", "outbound_recording_enabled",
       "hipaa_account", "features", "outbound_recording_on_by_default",
       "masked_id", "outbound_greeting_enabled", "agency_in_trial",
       "has_zuora_account", "brand_status", "approaching_cold_outbound_limit",
       "allow_cold_outbound_texting", "allow_texting", "ten_dlc_effective_date",
       "has_unique_subaccount"]
    requiresAccountId := false }

def callsConfig : EndpointConfig :=
  { name := "calls"
    path := "/v3/a/\x7baccount_id\x7d/calls.json"
    fields :=
      ["id", "answered", "business_phone_number", "customer_city",
       "customer_country", "customer_name", "customer_phone_number",
       "customer_state", "direction", "duration", "recording",
       "recording_duration", "recording_player", "start_time",
       "tracking_phone_number", "voicemail"]
    optionalFields :=
      ["agent_email", "call_highlights", "call_summary", "call_type",
       "campaign", "company_id", "company_name", "company_time_zone",
       "created_at", "custom", "device_type", "fbclid", "first_call",
       "formatted_call_type", "formatted_customer_location",
       "formatted_business_phone_number", "formatted_customer_name",
       "formatted_customer_name_or_phone_number",
       "formatted_customer_phone_number", "formatted_duration",
       "formatted_tracking_phone_number", "formatted_tracking_source",
       "formatted_value", "ga", "gclid", "good_lead_call_id",
       "good_lead_call_time", "keypad_entries", "keywords",
       "keywords_spotted", "landing_page_url", "last_requested_url",
       "lead_status", "medium", "milestones", "msclkid", "note",
       "person_id", "prior_calls", "referrer_domain", "referring_url",
       "sentiment", "session_uuid", "source", "source_name",
       "speaker_percent", "tags", "detail_tags", "timeline_url",
       "total_calls", "tracker_id", "transcription", "utm_campaign",
       "utm_content", "utm_medium", "utm_source", "utm_term", "utma",
       "utmb", "utmc", "utmv", "utmz", "value", "voice_assist_message",
       "waveforms", "zip_code", "blocked_number"]
    paginationType := "relative" }

def companiesConfig : EndpointConfig :=
  { name := "companies"
    path := "/v3/a/\x7baccount_id\x7d/companies.json"
    fields := ["id", "name", "status", "time_zone", "created_at"]
    optionalFields :=
      ["disabled_at", "dni_active", "script_url", "callscore_enabled",
       "lead_scoring_enabled", "swap_exclude_jquery", "swap_ppc_override",
       "swap_landing_override", "swap_cookie_duration",
       "swap_cookie_duration_unit", "callscribe_enabled",
       "keyword_spotting_enabled", "form_capture", "verified_caller_ids",
       "masked_id"] }

def formSubmissionsConfig : EndpointConfig :=
  { name := "form_submissions"
    path := "/v3/a/\x7baccount_id\x7d/form_submissions.json"
    fields :=
      ["id", "company_id", "person_id", "form_data", "form_url",
       "landing_page_url", "referrer", "referring_url", "submitted_at",
       "first_form", "customer_phone_number", "customer_name",
       "customer_email"]
    optionalFields :=
      ["formatted_customer_phone_number", "formatted_customer_name",
       "source", "keywords", "campaign", "medium", "lead_status",
       "note", "tags", "detail_tags", "milestones", "value",
       "utm_source", "utm_medium", "utm_campaign", "form_name",
       "company_name", "person_email", "timeline_url", "blocked_number"] }

def integrationsConfig : EndpointConfig :=
  { name := "integrations"
    path := "/v3/a/\x7baccount_id\x7d/integrations.json"
    fields := ["id", "config", "state", "type"]
    optionalFields := ["signing_key"]
    requiresCompanyId := true }

def tagsConfig : EndpointConfig :=
  { name := "tags"
    path := "/v3/a/\x7baccount_id\x7d/tags.json"
    fields :=
      ["id", "name", "tag_level", "color", "background_color",
       "company_id", "status", "disabled", "created_at",
       "hex_color", "hex_background_color"]
    optionalFields := [] }

def trackersConfig : EndpointConfig :=
  { name := "trackers"
    path := "/v3/a/\x7baccount_id\x7d/trackers.json"
    fields := ["id", "name", "type", "status", "destination_number", "created_at"]
    optionalFields :=
      ["tracking_numbers", "whisper_message", "sms_supported", "sms_enabled",
       "company", "source", "call_flow", "disabled_at", "call_alerts",
       "sms_alerts", "swap_targets", "campaign_name", "message_flow"] }

def usersConfig : EndpointConfig :=
  { name := "users"
    path := "/v3/a/\x7baccount_id\x7d/users.json"
    fields := ["id", "email", "first_name", "last_name", "role", "created_at"]
    optionalFields := ["name", "companies"] }

def textMessagesConfig : EndpointConfig :=
  { name := "text_messages"
    path := "/v3/a/\x7baccount_id\x7d/text-messages.json"
    fields :=
      ["id", "company_id", "initial_tracker_id", "current_tracker_id",
       "customer_name", "customer_phone_number", "initial_tracking_number",
       "current_tracking_number", "last_message_at", "state"]
    optionalFields :=
      ["company_time_zone", "formatted_customer_phone_number",
       "formatted_initial_tracking_number",
       "formatted_current_tracking_number", "formatted_customer_name",
       "recent_messages", "lead_status", "source"] }

def notificationsConfig : EndpointConfig :=
  { name := "notifications"
    path := "/v3/a/\x7baccount_id\x7d/notifications.json"
    fields := ["id", "config", "name", "company_id"]
    optionalFields :=
      ["agent_id", "agent_name", "alert_type", "call_enabled",
       "company_name", "short_name", "send_desktop", "send_email",
       "send_push", "sms_enabled", "tags", "tracker_id", "tracker_name",
       "user_id", "email"] }

def outboundCallerIdsConfig : EndpointConfig :=
  { name := "outbound_caller_ids"
    path := "/v3/a/\x7baccount_id\x7d/caller_ids.json"
    fields := ["id", "phone_number", "name", "verified", "created_at"]
    optionalFields := ["company_id", "formatted_phone_number", "validation_code"]
    requiresCompanyId := true }

/-- The `EndpointRegistry.endpoints` dictionary, in insertion order. -/
def endpointRegistry : List EndpointConfig :=
  [accountsConfig, callsConfig, companiesConfig, formSubmissionsConfig,
   integrationsConfig, tagsConfig, trackersConfig, usersConfig,
   textMessagesConfig, notificationsConfig, outboundCallerIdsConfig]

/-- `EndpointRegistry.get_endpoint(name)`. -/
def getEndpoint (name : String) : Option EndpointConfig :=
  endpointRegistry.find? (fun cfg => cfg.name = name)

/-- `EndpointRegistry.get_endpoint_names()` (Python dict keys keep
insertion order). -/
def endpointNames : List String :=
  endpointRegistry.map (fun cfg => cfg.name)

/-- `EndpointRegistry.get_all_fields(endpoint_name)`:
`endpoint.fields + endpoint.optional_fields`, `[]` for an unknown name. -/
def getAllFields (name : String) : List String :=
  match getEndpoint name with
  | none => []
  | some cfg => cfg.fields ++ cfg.optionalFields

/-! ### Request-parameter building (src/processors/base_processor.py lines
197-225 and src/processors/calls_processor.py lines 20-36) -/

/-- The request-parameter dictionary; absent keys are `none`.  `fields`
holds the comma-joined field-selection value. -/
structure RequestParams where
  page : Option Nat := none
  perPage : Option Nat := none
  companyId : Option String := none
  fields : Option String := none
  deriving Repr, DecidableEq

/-- The `skip_fields` list of `build_request_params` (line 219). -/
def skipFieldsEndpoints : List String :=
  ["tags", "text_messages", "outbound_caller_ids"]

/-- `BaseProcessor.build_request_params(offset, limit)`: for
`pagination_type == "offset"` set `page = offset // limit + 1` and
`per_page = min(limit, max_per_page)`; for `"relative"` set `page` only
when `offset > 0` and always `per_page`; attach `company_id` when required
and the (network) lookup returned one — `companyId` stands for
`self.get_company_id()` — and the comma-joined field list unless the
endpoint is in `skip_fields` or has no fields. -/
def buildRequestParams (cfg : EndpointConfig) (companyId : Option String)
    (offset limit : Nat) : RequestParams :=
  let p1 : RequestParams :=
    if cfg.paginationType = "offset" then
      { page := some (offset / limit + 1)
        perPage := some (min limit cfg.maxPerPage) }
    else if cfg.paginationType = "relative" then
      { page := if 0 < offset then some (offset / limit + 1) else none
        perPage := some (min limit cfg.maxPerPage) }
    else {}
  let p2 :=
    if cfg.requiresCompanyId then
      match companyId with
      | some cid => { p1 with companyId := some cid }
      | none => p1
    else p1
  if cfg.name ∉ skipFieldsEndpoints ∧ getAllFields cfg.name ≠ [] then
    { p2 with fields := some (String.intercalate "," (getAllFields cfg.name)) }
  else p2

/-- `CallsProcessor.build_request_params(offset, limit)`: call the base
version first, then, because the calls endpoint uses
`pagination_type == "relative"`, replace the parameters entirely with
`per_page = min(limit, max_per_page)` plus the comma-joined full field
list — no page number is ever sent. -/
def callsBuildRequestParams (companyId : Option String)
    (offset limit : Nat) : RequestParams :=
  let base := buildRequestParams callsConfig companyId offset limit
  if callsConfig.paginationType = "relative" then
    let allFields := callsConfig.fields ++ callsConfig.optionalFields
    let p : RequestParams := { perPage := some (min limit callsConfig.maxPerPage) }
    if allFields ≠ [] then
      { p with fields := some (String.intercalate "," allFields) }
    else p
  else base

/-! ### Run coordination (src/master_downloader.py, `download_endpoints`) -/

/-- A fatal error of `download_endpoints`: either the `ValueError` raised
by endpoint validation (carrying every invalid requested name), or an
exception escaping `self.get_account_id()`. -/
inductive DownloadError where
  | invalidEndpoints (names : List String)
  | accountResolution (msg : String)
  deriving Repr, DecidableEq

/-- The per-endpoint `try/except` of the `download_endpoints` loop (lines
111-157): an exception escaping `process_endpoint` is converted into a
failed result with `records_processed = 0` and `errors = 1`.  `processOne`
stands for creating the processor and running it against the network. -/
def runOne (processOne : String → Except String EndpointResult)
    (name : String) : EndpointResult :=
  match processOne name with
  | .ok r => r
  | .error msg =>
    { endpoint := name
      records_processed := 0
      errors := 1
      csv_file := ""
      success := false
      error_message := some msg }

/-- The `results['summary']` dictionary of `download_endpoints`. -/
structure RunSummary where
  total_endpoints : Nat
  successful_endpoints : Nat
  failed_endpoints : Nat
  total_records : Nat
  total_errors : Nat
  deriving Repr, DecidableEq

/-- Summary aggregation of the `download_endpoints` loop: per endpoint
result, one of `successful_endpoints`/`failed_endpoints` is incremented by
its `success` flag, and `records_processed`/`errors` are summed (the
exception branch adds 1 error and no records, which its converted result
also reports). -/
def mkSummary (results : List EndpointResult) : RunSummary :=
  { total_endpoints := results.length
    successful_endpoints := (results.filter (fun r => r.success)).length
    failed_endpoints := (results.filter (fun r => !r.success)).length
    total_records := (results.map (fun r => r.records_processed)).sum
    total_errors := (results.map (fun r => r.errors)).sum }

/-- `MasterDownloader.download_endpoints(endpoint_names, ...)` (lines
74-169): first validate every requested name against
`endpoint_registry.get_endpoint_names()` and raise a `ValueError` naming
all invalid ones together; only then resolve the account id
(`resolveAccount` stands for `self.get_account_id()`, whose failure is
fatal); then process each endpoint in order under the per-endpoint catch,
collecting results and the aggregate summary. -/
def downloadEndpoints (resolveAccount : Except String String)
    (processOne : String → Except String EndpointResult)
    (names : List String) :
    Except DownloadError (List (String × EndpointResult) × RunSummary) :=
  let invalid := names.filter (fun ep => !(endpointNames.contains ep))
  if invalid ≠ [] then
    .error (.invalidEndpoints invalid)
  else
    match resolveAccount with
    | .error msg => .error (.accountResolution msg)
    | .ok _ =>
      let results := names.map (fun n => (n, runOne processOne n))
      .ok (results, mkSummary (results.map Prod.snd))

/-! ### Specification predicates and concrete scenario inputs -/

/-- Characterization of a window list as a partition of `[o, limit)` into
consecutive windows, each starting where the previous ended and of size
`batch_size` truncated to the remaining count (`min bs (limit - o)`), the
list ending exactly when the limit is covered. -/
def windowsSpec (limit bs : Nat) : Nat → List (Nat × Nat) → Prop
  | o, [] => limit ≤ o
  | o, w :: rest =>
    o < limit ∧ w = (o, min bs (limit - o))
      ∧ windowsSpec limit bs (o + min bs (limit - o)) rest

/-- Batch outcomes of the partial-failure scenario: batch 1 returns 100
records, batch 2 raises, batch 3 returns 50 records. -/
def scenario3 : Nat → Option (List Nat) :=
  fun n =>
    if n = 1 then some (List.replicate 100 0)
    else if n = 3 then some (List.replicate 50 0)
    else none

/-- Outcomes in which every batch fetch fails permanently. -/
def allFailOutcomes : Nat → Option (List Nat) := fun _ => none

/-- The quantity the claim asserts for the all-batches-fail run, from its
words: the number of batches attempted before or including the first
(permanently) failing batch — the leading successful batches plus the
first failing one, capped at the number of batches. -/
def batchesUpToFirstFailure (outcomes : Nat → Option (List α))
    (total : Nat) : Nat :=
  min total
    (((((List.range total).map (fun i => i + 1)).takeWhile
        (fun n => (outcomes n).isSome)).length) + 1)

/-- Operation whose first attempt raises a rate-limit error advertising a
retry-after of 7 seconds and whose second attempt succeeds. -/
def rateLimitedOnce : Nat → Except ApiError Nat :=
  fun n => if n = 1 then .error (.rateLimit (some 7)) else .ok 0

/-- Operation that fails with a retryable error on attempts 1 and 2 and
succeeds on attempt 3. -/
def succeedsOnThirdAttempt : Nat → Except ApiError Nat :=
  fun n => if n < 3 then .error (.rateLimit none) else .ok 42

/-- Outcomes in which every batch returns an empty record list (a genuinely
empty remote resource). -/
def emptyOutcomes : Nat → Option (List Nat) := fun _ => some []

/-- Outcomes in which the single batch returns more records (8) than the
requested window size. -/
def overshootOutcomes : Nat → Option (List Nat) :=
  fun _ => some (List.replicate 8 0)

/-! ## Lemmas about the retry loop -/

theorem retryGo_ok (w : Nat → Nat) (op : Nat → Except ApiError α)
    (attempt fuel : Nat) (v : α) (h : op attempt = .ok v) :
    retryGo w op attempt fuel = ⟨.ok v, attempt, []⟩ := by
  cases fuel <;> simp [retryGo, h]

theorem retryGo_error_stop (w : Nat → Nat) (op : Nat → Except ApiError α)
    (attempt : Nat) (e : ApiError) (h : op attempt = .error e) :
    retryGo w op attempt 0 = ⟨.error e, attempt, []⟩ := by
  simp [retryGo, h]

theorem retryGo_error_noretry (w : Nat → Nat) (op : Nat → Except ApiError α)
    (attempt fuel : Nat) (e : ApiError) (h : op attempt = .error e)
    (hr : isRetryableError e = false) :
    retryGo w op attempt fuel = ⟨.error e, attempt, []⟩ := by
  cases fuel <;> simp [retryGo, h, hr]

theorem retryGo_error_retry (w : Nat → Nat) (op : Nat → Except ApiError α)
    (attempt fuel : Nat) (e : ApiError) (h : op attempt = .error e)
    (hr : isRetryableError e = true) :
    retryGo w op attempt (fuel + 1)
      = ⟨(retryGo w op (attempt + 1) fuel).result,
         (retryGo w op (attempt + 1) fuel).attempts,
         w attempt :: (retryGo w op (attempt + 1) fuel).waits⟩ := by
  simp [retryGo, h, hr]

theorem retryGo_attempts_le (w : Nat → Nat) (op : Nat → Except ApiError α) :
    ∀ (fuel attempt : Nat), (retryGo w op attempt fuel).attempts ≤ attempt + fuel := by
  intro fuel
  induction fuel with
  | zero =>
    intro attempt
    cases h : op attempt <;> simp [retryGo, h]
  | succ f ih =>
    intro attempt
    cases h : op attempt with
    | ok v => simp [retryGo, h]
    | error e =>
      by_cases hr : isRetryableError e
      · rw [retryGo_error_retry w op attempt f e h hr]
        have := ih (attempt + 1)
        simpa using by omega
      · rw [retryGo_error_noretry w op attempt (f + 1) e h (by simpa using hr)]
        simp

theorem retryGo_attempts_ge (w : Nat → Nat) (op : Nat → Except ApiError α) :
    ∀ (fuel attempt : Nat), attempt ≤ (retryGo w op attempt fuel).attempts := by
  intro fuel
  induction fuel with
  | zero =>
    intro attempt
    cases h : op attempt <;> simp [retryGo, h]
  | succ f ih =>
    intro attempt
    cases h : op attempt with
    | ok v => simp [retryGo, h]
    | error e =>
      by_cases hr : isRetryableError e
      · rw [retryGo_error_retry w op attempt f e h hr]
        have := ih (attempt + 1)
        simp only []
        omega
      · rw [retryGo_error_noretry w op attempt (f + 1) e h (by simpa using hr)]

theorem retryGo_waits_eq (w : Nat → Nat) (op : Nat → Except ApiError α) :
    ∀ (fuel attempt : Nat),
      (retryGo w op attempt fuel).waits
        = (List.range ((retryGo w op attempt fuel).attempts - attempt)).map
            (fun i => w (attempt + i)) := by
  intro fuel
  induction fuel with
  | zero =>
    intro attempt
    cases h : op attempt <;> simp [retryGo, h]
  | succ f ih =>
    intro attempt
    cases h : op attempt with
    | ok v => simp [retryGo, h]
    | error e =>
      by_cases hr : isRetryableError e
      · rw [retryGo_error_retry w op attempt f e h hr]
        have hge := retryGo_attempts_ge w op f (attempt + 1)
        have hsub : (retryGo w op (attempt + 1) f).attempts - attempt
            = ((retryGo w op (attempt + 1) f).attempts - (attempt + 1)) + 1 := by
          omega
        simp only [hsub, List.range_succ_eq_map, List.map_cons, List.map_map]
        rw [ih (attempt + 1)]
        refine congrArg₂ List.cons (by simp) ?_
        refine List.map_congr_left ?_
        intro a _
        simp [Function.comp]
        congr 1
        omega
      · rw [retryGo_error_noretry w op attempt (f + 1) e h (by simpa using hr)]
        simp

/-! ## Lemmas about the batch window loop -/

theorem windowsFromFuel_spec (bs : Nat) (hb : 0 < bs) :
    ∀ (fuel limit offset : Nat), limit - offset ≤ fuel →
      windowsSpec limit bs offset (windowsFromFuel bs fuel limit offset) := by
  intro fuel
  induction fuel with
  | zero =>
    intro limit offset h
    show windowsSpec limit bs offset []
    show limit ≤ offset
    omega
  | succ f ih =>
    intro limit offset h
    by_cases ho : offset < limit
    · show windowsSpec limit bs offset
        (if offset < limit then _ :: _ else [])
      rw [if_pos ho]
      exact ⟨ho, rfl, ih limit (offset + min bs (limit - offset)) (by omega)⟩
    · show windowsSpec limit bs offset
        (if offset < limit then _ :: _ else [])
      rw [if_neg ho]
      show limit ≤ offset
      omega

theorem windows_spec (limit bs : Nat) (hb : 0 < bs) :
    windowsSpec limit bs 0 (windows limit bs) :=
  windowsFromFuel_spec bs hb limit limit 0 (by omega)

theorem windowsFromFuel_length (bs : Nat) (hb : 0 < bs) :
    ∀ (fuel limit offset : Nat), limit - offset ≤ fuel →
      (windowsFromFuel bs fuel limit offset).length
        = (limit - offset + bs - 1) / bs := by
  intro fuel
  induction fuel with
  | zero =>
    intro limit offset h
    rw [show limit - offset = 0 by omega]
    simp only [windowsFromFuel, List.length_nil, Nat.zero_add]
    rw [Nat.div_eq_of_lt (by omega : bs - 1 < bs)]
  | succ f ih =>
    intro limit offset h
    by_cases ho : offset < limit
    · have hmin : 0 < min bs (limit - offset) := by omega
      simp only [windowsFromFuel, if_pos ho, List.length_cons]
      rw [ih limit (offset + min bs (limit - offset)) (by omega)]
      rw [show limit - offset + bs - 1 = (limit - offset - 1) + bs by omega,
        Nat.add_div_right _ hb]
      rcases le_or_lt bs (limit - offset) with hc | hc
      · rw [Nat.min_eq_left hc]
        rw [show limit - (offset + bs) + bs - 1 = limit - offset - 1 by omega]
      · rw [Nat.min_eq_right (by omega)]
        rw [show limit - (offset + (limit - offset)) = 0 by omega]
        rw [Nat.div_eq_of_lt (by omega : 0 + bs - 1 < bs),
          Nat.div_eq_of_lt (by omega : limit - offset - 1 < bs)]
    · simp only [windowsFromFuel, if_neg ho, List.length_nil]
      rw [show limit - offset = 0 by omega]
      rw [Nat.div_eq_of_lt (by omega : 0 + bs - 1 < bs)]

theorem windows_length (limit bs : Nat) (hb : 0 < bs) :
    (windows limit bs).length = (limit + bs - 1) / bs := by
  have := windowsFromFuel_length bs hb limit limit 0 (by omega)
  simpa [windows] using this

theorem windows_ne_nil (limit bs : Nat) (hl : 0 < limit) :
    windows limit bs ≠ [] := by
  unfold windows
  cases limit with
  | zero => omega
  | succ n =>
    simp [windowsFromFuel]

theorem batchResults_length (outcomes : Nat → Option (List α)) :
    ∀ (ws : List (Nat × Nat)) (n : Nat),
      (batchResults outcomes n ws).length = ws.length := by
  intro ws
  induction ws with
  | nil => intro n; simp [batchResults]
  | cons w rest ih =>
    intro n
    simp [batchResults, ih (n + 1)]

theorem batchResults_get? (outcomes : Nat → Option (List α)) :
    ∀ (ws : List (Nat × Nat)) (n i : Nat),
      (batchResults outcomes n ws).get? i
        = (ws.get? i).map (fun _ =>
            match outcomes (n + i) with
            | some recs => (recs, 0)
            | none => ([], 1)) := by
  intro ws
  induction ws with
  | nil => intro n i; simp [batchResults]
  | cons w rest ih =>
    intro n i
    cases i with
    | zero => simp [batchResults]
    | succ j =>
      rw [show n + (j + 1) = (n + 1) + j by omega]
      simpa [batchResults] using ih (n + 1) j

theorem batchResults_all_failures (outcomes : Nat → Option (List α))
    (hfail : ∀ n, outcomes n = none) :
    ∀ (ws : List (Nat × Nat)) (n : Nat),
      ∀ b ∈ batchResults outcomes n ws, b = ([], 1) := by
  intro ws
  induction ws with
  | nil => intro n b hb; simp [batchResults] at hb
  | cons w rest ih =>
    intro n b hb
    rw [show batchResults outcomes n (w :: rest)
        = ([], 1) :: batchResults outcomes (n + 1) rest by
      simp [batchResults, hfail n]] at hb
    rcases List.mem_cons.mp hb with h | h
    · exact h
    · exact ih (n + 1) b h

theorem accumulateBatches_fst_length_le (limit : Nat) :
    ∀ (batches : List (List α × Nat)) (acc : List α) (errs : Nat),
      acc.length ≤ limit →
      (accumulateBatches limit batches acc errs).1.length ≤ limit := by
  intro batches
  induction batches with
  | nil =>
    intro acc errs h
    simpa [accumulateBatches] using h
  | cons b rest ih =>
    intro acc errs h
    obtain ⟨recs, e⟩ := b
    by_cases hle : limit ≤ (acc ++ recs).length
    · simp only [accumulateBatches, if_pos hle, List.length_take]
      omega
    · simp only [accumulateBatches, if_neg hle]
      exact ih (acc ++ recs) (errs + e) (by omega)

theorem accumulateBatches_all_errors (limit : Nat) (hl : 0 < limit) :
    ∀ (batches : List (List α × Nat)) (errs : Nat),
      (∀ b ∈ batches, b = ([], 1)) →
      accumulateBatches limit batches [] errs = ([], errs + batches.length) := by
  intro batches
  induction batches with
  | nil => intro errs _; simp [accumulateBatches]
  | cons b rest ih =>
    intro errs h
    have hb : b = ([], 1) := h b (List.mem_cons_self b rest)
    subst hb
    have hnle : ¬ (limit ≤ (([] : List α) ++ []).length) := by simp; omega
    simp only [accumulateBatches, if_neg hnle]
    rw [show (([] : List α) ++ []) = [] from rfl]
    rw [ih (errs + 1) (fun x hx => h x (List.mem_cons_of_mem _ hx))]
    simp
    omega

/-! ## Claim theorems -/

/-- C1: for every endpoint run of `process_endpoint` (normal or exceptional
path), the `success` flag of the returned result equals
`records_processed > 0 or error_count == 0`; in particular a zero-record,
zero-error run has `success = true` and a zero-record run with at least one
error has `success = false`. -/
theorem C1_success_flag {α : Type} (name : String)
    (outcomes : Nat → Option (List α)) (limit bs : Nat) (msg : String)
    (r : EndpointResult)
    (h : r = processEndpoint name outcomes limit bs
      ∨ r = processEndpointError name msg) :
    (r.success = true ↔ (0 < r.records_processed ∨ r.errors = 0))
    ∧ (r.records_processed = 0 → r.errors = 0 → r.success = true)
    ∧ (r.records_processed = 0 → 0 < r.errors → r.success = false) := by
  have hiff : r.success = true ↔ (0 < r.records_processed ∨ r.errors = 0) := by
    rcases h with h | h <;> subst h
    · simp [processEndpoint]
    · simp [processEndpointError]
  refine ⟨hiff, ?_, ?_⟩
  · intro _ he
    exact hiff.mpr (Or.inr he)
  · intro h0 he
    cases hsucc : r.success with
    | false => rfl
    | true =>
      rcases hiff.mp hsucc with h1 | h1 <;> omega

/-- Witness for C1 at a concrete zero-record, zero-error run: an empty
resource still counts as success. -/
theorem C1_success_flag_witness :
    (processEndpoint "accounts" emptyOutcomes 5 5).success = true :=
  (C1_success_flag "accounts" emptyOutcomes 5 5 ""
      (processEndpoint "accounts" emptyOutcomes 5 5) (Or.inl rfl)).2.1 rfl rfl

/-- C2: for every positive limit and batch size and every sequence of batch
outcomes, `records_processed` never exceeds the requested limit, even when
a batch returns more records than requested. -/
theorem C2_records_le_limit {α : Type} (name : String)
    (outcomes : Nat → Option (List α)) (limit bs : Nat)
    (_hl : 0 < limit) (_hb : 0 < bs) :
    (processEndpoint name outcomes limit bs).records_processed ≤ limit :=
  accumulateBatches_fst_length_le limit (processInBatches outcomes limit bs)
    [] 0 (by simp)

/-- Witness for C2: one window of size 5 whose fetch returns 8 records
still yields at most 5 processed records. -/
theorem C2_records_le_limit_witness :
    0 < 5 ∧
      (processEndpoint "calls" overshootOutcomes 5 5).records_processed ≤ 5 :=
  ⟨by decide, C2_records_le_limit "calls" overshootOutcomes 5 5
    (by decide) (by decide)⟩

/-- C10: a `limit` (or `batch_size`) of 0 is falsy for Python `or`, so
`process_endpoint` replaces it by the configured default
(`max_records_per_endpoint = 100`, `default_batch_size = 100`), exactly as
if the argument had been omitted, and batches are still fetched (the
window list of the resolved run is non-empty). -/
theorem C10_zero_limit_uses_defaults {α : Type} (name : String)
    (outcomes : Nat → Option (List α)) :
    pyOrDefault (some 0) maxRecordsPerEndpoint = maxRecordsPerEndpoint
    ∧ pyOrDefault (some 0) defaultBatchSize = defaultBatchSize
    ∧ maxRecordsPerEndpoint = 100
    ∧ defaultBatchSize = 100
    ∧ (∀ b, processEndpointTop name outcomes (some 0) b
        = processEndpointTop name outcomes none b)
    ∧ (∀ l, processEndpointTop name outcomes l (some 0)
        = processEndpointTop name outcomes l none)
    ∧ windows (pyOrDefault (some 0) maxRecordsPerEndpoint)
        (pyOrDefault (some 0) defaultBatchSize) ≠ [] := by
  refine ⟨rfl, rfl, rfl, rfl, fun b => rfl, fun l => rfl, ?_⟩
  exact windows_ne_nil 100 100 (by decide)

/-- C3: `process_in_batches` partitions `[0, limit)` into consecutive
windows of size `batch_size` with the last truncated to the remaining
count; every window yields exactly one `(records, errors)` pair regardless
of failures (processing continues past a failed window), a failed window
yielding `([], 1)`; and in the concrete scenario limit=250, batch_size=100
with windows 100/100/50 where window 2 fails and windows 1 and 3 return
100 and 50 records, the result is `records_processed=150, error_count=1,
success=true`. -/
theorem C3_partition_and_batch_failures :
    (∀ (limit bs : Nat), 0 < bs → windowsSpec limit bs 0 (windows limit bs))
    ∧ (∀ (outcomes : Nat → Option (List Nat)) (limit bs : Nat),
        (processInBatches outcomes limit bs).length = (windows limit bs).length)
    ∧ (∀ (outcomes : Nat → Option (List Nat)) (limit bs i : Nat),
        outcomes (i + 1) = none →
        (processInBatches outcomes limit bs).get? i
          = ((windows limit bs).get? i).map (fun _ => ([], 1)))
    ∧ windows 250 100 = [(0, 100), (100, 100), (200, 50)]
    ∧ (processEndpoint "calls" scenario3 250 100).records_processed = 150
    ∧ (processEndpoint "calls" scenario3 250 100).errors = 1
    ∧ (processEndpoint "calls" scenario3 250 100).success = true := by
  refine ⟨?_, ?_, ?_, by decide, rfl, rfl, rfl⟩
  · intro limit bs hb
    exact windows_spec limit bs hb
  · intro outcomes limit bs
    exact batchResults_length outcomes (windows limit bs) 1
  · intro outcomes limit bs i hno
    have h := batchResults_get? outcomes (windows limit bs) 1 i
    rw [show 1 + i = i + 1 by omega, hno] at h
    exact h

/-- Witness for C3's hypotheses at concrete inputs: the window partition of
the scenario run and the window count of its batch list. -/
theorem C3_partition_and_batch_failures_witness :
    windowsSpec 250 100 0 (windows 250 100)
    ∧ (processInBatches scenario3 250 100).length = (windows 250 100).length
    ∧ (processInBatches scenario3 250 100).get? 1
        = ((windows 250 100).get? 1).map (fun _ => ([], 1)) :=
  ⟨C3_partition_and_batch_failures.1 250 100 (by decide),
   C3_partition_and_batch_failures.2.1 scenario3 250 100,
   C3_partition_and_batch_failures.2.2.1 scenario3 250 100 1 rfl⟩

/-- C4 (amended): if every batch fetch for an endpoint fails permanently,
`records_processed = 0` and `success = false`, and `error_count` equals the
total number of windows attempted — the whole partition,
`⌈limit / batch_size⌉` windows — because a permanent failure of one window
does not stop the loop. -/
theorem C4_all_batches_fail (name : String) (limit bs : Nat)
    (hl : 0 < limit) (hb : 0 < bs)
    (outcomes : Nat → Option (List Nat)) (hfail : ∀ n, outcomes n = none) :
    (processEndpoint name outcomes limit bs).records_processed = 0
    ∧ (processEndpoint name outcomes limit bs).errors = (windows limit bs).length
    ∧ (windows limit bs).length = (limit + bs - 1) / bs
    ∧ 0 < (processEndpoint name outcomes limit bs).errors
    ∧ (processEndpoint name outcomes limit bs).success = false := by
  have hall : ∀ b ∈ processInBatches outcomes limit bs, b = ([], 1) :=
    batchResults_all_failures outcomes hfail (windows limit bs) 1
  have hacc :
      accumulateBatches limit (processInBatches outcomes limit bs) [] 0
        = ([], 0 + (processInBatches outcomes limit bs).length) :=
    accumulateBatches_all_errors limit hl (processInBatches outcomes limit bs)
      0 hall
  have hlen : (processInBatches outcomes limit bs).length
      = (windows limit bs).length :=
    batchResults_length outcomes (windows limit bs) 1
  have hpos : 0 < (windows limit bs).length :=
    List.length_pos.mpr (windows_ne_nil limit bs hl)
  refine ⟨?_, ?_, windows_length limit bs hb, ?_, ?_⟩
  · show (accumulateBatches limit (processInBatches outcomes limit bs)
        [] 0).1.length = 0
    rw [hacc]
    rfl
  · show (accumulateBatches limit (processInBatches outcomes limit bs)
        [] 0).2 = (windows limit bs).length
    rw [hacc]
    omega
  · show 0 < (accumulateBatches limit (processInBatches outcomes limit bs)
        [] 0).2
    rw [hacc]
    omega
  · show (decide (0 < (accumulateBatches limit
        (processInBatches outcomes limit bs) [] 0).1.length)
      || decide ((accumulateBatches limit
        (processInBatches outcomes limit bs) [] 0).2 = 0)) = false
    rw [hacc]
    have hx : (processInBatches outcomes limit bs).length ≠ 0 := by omega
    simp [hx]

/-- Witness for C4's amended statement at limit=200, batch_size=100 with
every batch failing. -/
theorem C4_all_batches_fail_witness :
    (processEndpoint "calls" allFailOutcomes 200 100).records_processed = 0
    ∧ (processEndpoint "calls" allFailOutcomes 200 100).errors
        = (windows 200 100).length
    ∧ (windows 200 100).length = (200 + 100 - 1) / 100
    ∧ 0 < (processEndpoint "calls" allFailOutcomes 200 100).errors
    ∧ (processEndpoint "calls" allFailOutcomes 200 100).success = false :=
  C4_all_batches_fail "calls" 200 100 (by decide) (by decide)
    allFailOutcomes (fun _ => rfl)

/-- Counterexample for C4 as stated: with limit=200 and batch_size=100 and
every batch failing permanently, the code reports `error_count = 2` (both
windows are attempted, the loop never halting on a permanent failure),
whereas the number of batches attempted before or including the first
permanent failure is 1. -/
theorem C4_counterexample :
    (processEndpoint "calls" allFailOutcomes 200 100).errors = 2
    ∧ batchesUpToFirstFailure allFailOutcomes ((windows 200 100).length) = 1
    ∧ (processEndpoint "calls" allFailOutcomes 200 100).errors
        ≠ batchesUpToFirstFailure allFailOutcomes ((windows 200 100).length) := by
  refine ⟨rfl, rfl, ?_⟩
  decide

/-- C5: the retry policy fails immediately (exactly one attempt) on any
error outside the retry tuple — authentication and not-found in
particular, and also any unclassified error; it retries rate-limit,
server-error and connection/timeout failures up to the configured bound of
attempts (default 3); exhausting the bound re-raises the last error; and a
retryable error on attempts 1 and 2 followed by success on attempt 3
returns the success value after exactly 3 attempts. -/
theorem C5_retry_classification {α : Type} :
    (∀ (op : Nat → Except ApiError α) (e : ApiError),
        isRetryableError e = false → op 1 = .error e →
        executeWithRetry op = ⟨.error e, 1, []⟩)
    ∧ isRetryableError .authentication = false
    ∧ isRetryableError .notFound = false
    ∧ isRetryableError .validation = false
    ∧ isRetryableError .other = false
    ∧ (∀ ra, isRetryableError (.rateLimit ra) = true)
    ∧ (∀ s, isRetryableError (.serverError s) = true)
    ∧ isRetryableError .connectionError = true
    ∧ isRetryableError .timeout = true
    ∧ isRetryableError .chunkedEncoding = true
    ∧ retryMaxAttempts = 3
    ∧ (∀ (maxAttempts : Nat) (op : Nat → Except ApiError α),
        0 < maxAttempts →
        (executeWithRetryN maxAttempts op).attempts ≤ maxAttempts)
    ∧ (∀ (op : Nat → Except ApiError α) (e1 e2 e3 : ApiError),
        isRetryableError e1 = true → isRetryableError e2 = true →
        isRetryableError e3 = true →
        op 1 = .error e1 → op 2 = .error e2 → op 3 = .error e3 →
        (executeWithRetry op).result = .error e3
          ∧ (executeWithRetry op).attempts = 3)
    ∧ (∀ (op : Nat → Except ApiError α) (e1 e2 : ApiError) (v : α),
        isRetryableError e1 = true → isRetryableError e2 = true →
        op 1 = .error e1 → op 2 = .error e2 → op 3 = .ok v →
        (executeWithRetry op).result = .ok v
          ∧ (executeWithRetry op).attempts = 3) := by
  refine ⟨?_, rfl, rfl, rfl, rfl, fun ra => rfl, fun s => rfl, rfl, rfl, rfl,
    rfl, ?_, ?_, ?_⟩
  · intro op e hr h
    exact retryGo_error_noretry waitExponential op 1 2 e h hr
  · intro m op hm
    have hle := retryGo_attempts_le waitExponential op (m - 1) 1
    have heq : (executeWithRetryN m op).attempts
        = (retryGo waitExponential op 1 (m - 1)).attempts := rfl
    omega
  · intro op e1 e2 e3 h1 h2 h3 ho1 ho2 ho3
    have s1 : executeWithRetry op
        = ⟨(retryGo waitExponential op 2 1).result,
           (retryGo waitExponential op 2 1).attempts,
           waitExponential 1 :: (retryGo waitExponential op 2 1).waits⟩ :=
      retryGo_error_retry waitExponential op 1 1 e1 ho1 h1
    have s2 : retryGo waitExponential op 2 1
        = ⟨(retryGo waitExponential op 3 0).result,
           (retryGo waitExponential op 3 0).attempts,
           waitExponential 2 :: (retryGo waitExponential op 3 0).waits⟩ :=
      retryGo_error_retry waitExponential op 2 0 e2 ho2 h2
    have s3 : retryGo waitExponential op 3 0 = ⟨.error e3, 3, []⟩ :=
      retryGo_error_stop waitExponential op 3 e3 ho3
    rw [s1, s2, s3]
    exact ⟨rfl, rfl⟩
  · intro op e1 e2 v h1 h2 ho1 ho2 ho3
    have s1 : executeWithRetry op
        = ⟨(retryGo waitExponential op 2 1).result,
           (retryGo waitExponential op 2 1).attempts,
           waitExponential 1 :: (retryGo waitExponential op 2 1).waits⟩ :=
      retryGo_error_retry waitExponential op 1 1 e1 ho1 h1
    have s2 : retryGo waitExponential op 2 1
        = ⟨(retryGo waitExponential op 3 0).result,
           (retryGo waitExponential op 3 0).attempts,
           waitExponential 2 :: (retryGo waitExponential op 3 0).waits⟩ :=
      retryGo_error_retry waitExponential op 2 0 e2 ho2 h2
    have s3 : retryGo waitExponential op 3 0 = ⟨.ok v, 3, []⟩ :=
      retryGo_ok waitExponential op 3 0 v ho3
    rw [s1, s2, s3]
    exact ⟨rfl, rfl⟩

/-- Witness for C5 at concrete operations: a non-retryable failure stops
after one attempt, and two retryable failures followed by success return
the value after three attempts. -/
theorem C5_retry_classification_witness :
    executeWithRetry (fun _ => (.error .authentication : Except ApiError Nat))
      = ⟨.error .authentication, 1, []⟩
    ∧ (executeWithRetry succeedsOnThirdAttempt).result = .ok 42
    ∧ (executeWithRetry succeedsOnThirdAttempt).attempts = 3 := by
  obtain ⟨hstop, -, -, -, -, -, -, -, -, -, -, -, -, hchain⟩ :=
    C5_retry_classification (α := Nat)
  have h := hchain succeedsOnThirdAttempt (.rateLimit none) (.rateLimit none)
    42 rfl rfl rfl rfl rfl
  exact ⟨hstop (fun _ => .error .authentication) .authentication rfl rfl,
    h.1, h.2⟩

/-- C6 (amended): the wait between retry attempts is always the tenacity
exponential-backoff schedule — the wait before attempt `i + 1` is
`waitExponential i`, for every operation, independent of any retry-after
duration carried by a rate-limit error — while the separate
`handle_rate_limit` helper (which does honor a parseable Retry-After by
sleeping exactly that duration and returning, and otherwise sleeps 60
seconds and raises) is never invoked by the retry path. -/
theorem C6_backoff_ignores_retry_after {α : Type} :
    (∀ (op : Nat → Except ApiError α),
        (executeWithRetry op).waits
          = (List.range ((executeWithRetry op).attempts - 1)).map
              (fun i => waitExponential (i + 1)))
    ∧ (∀ t, handleRateLimit 429 (some t) = { wait := some t, raised := false })
    ∧ handleRateLimit 429 none = { wait := some 60, raised := true } := by
  refine ⟨?_, fun t => rfl, rfl⟩
  intro op
  have h := retryGo_waits_eq waitExponential op 2 1
  refine h.trans ?_
  refine List.map_congr_left ?_
  intro a _
  congr 1
  omega

/-- Counterexample for C6 as stated: an operation whose first attempt
raises a rate-limit error carrying retry-after = 7 is retried after the
exponential-backoff wait of 2 seconds, not after 7 seconds. -/
theorem C6_counterexample :
    rateLimitedOnce 1 = .error (.rateLimit (some 7))
    ∧ (executeWithRetry rateLimitedOnce).waits = [waitExponential 1]
    ∧ waitExponential 1 = 2
    ∧ (executeWithRetry rateLimitedOnce).waits ≠ [7] := by
  refine ⟨rfl, rfl, rfl, ?_⟩
  decide

/-- C7: for every window, a page-based endpoint's request parameters carry
`page = offset / size + 1` and `per_page = min(size, cap)`; the
cursor-based (`"relative"`) calls endpoint, through its processor's
override, always carries `per_page = min(size, cap)` and never a page
number; and every endpoint in the catalog other than calls is
page-based. -/
theorem C7_pagination_parameters :
    (∀ (cfg : EndpointConfig) (companyId : Option String) (offset size : Nat),
        0 < size → cfg.paginationType = "offset" →
        (buildRequestParams cfg companyId offset size).page
            = some (offset / size + 1)
          ∧ (buildRequestParams cfg companyId offset size).perPage
              = some (min size cfg.maxPerPage))
    ∧ callsConfig.paginationType = "relative"
    ∧ (∀ (companyId : Option String) (offset size : Nat),
        (callsBuildRequestParams companyId offset size).perPage
            = some (min size callsConfig.maxPerPage)
          ∧ (callsBuildRequestParams companyId offset size).page = none)
    ∧ (∀ cfg ∈ endpointRegistry,
        cfg.paginationType = "offset" ∨ cfg.name = "calls") := by
  refine ⟨?_, rfl, ?_, by decide⟩
  · intro cfg companyId offset size _ hp
    cases companyId with
    | none =>
      cases hrc : cfg.requiresCompanyId <;>
        · simp only [buildRequestParams, hp, hrc]
          constructor <;> (split <;> rfl)
    | some cid =>
      cases hrc : cfg.requiresCompanyId <;>
        · simp only [buildRequestParams, hp, hrc]
          constructor <;> (split <;> rfl)
  · intro companyId offset size
    exact ⟨rfl, rfl⟩

/-- Witness for C7 at a concrete page-based window: the companies endpoint
at offset 100 with window size 50 requests page 3 and per_page 50. -/
theorem C7_pagination_parameters_witness :
    (buildRequestParams companiesConfig none 100 50).page
        = some (100 / 50 + 1)
    ∧ (buildRequestParams companiesConfig none 100 50).perPage
        = some (min 50 companiesConfig.maxPerPage) :=
  C7_pagination_parameters.1 companiesConfig none 100 50 (by decide) rfl

/-- C8: a requested endpoint list containing a name outside the catalog
makes `download_endpoints` fail with a configuration error naming all
invalid endpoints together; the outcome is identical for every account
resolver and every per-endpoint processing behaviour (so the failure
precedes account resolution and any network call, and no valid endpoint
in the list is processed). -/
theorem C8_invalid_endpoints_fail_fast
    (names : List String) (resolveAccount : Except String String)
    (processOne : String → Except String EndpointResult)
    (h : ∃ n ∈ names, n ∉ endpointNames) :
    downloadEndpoints resolveAccount processOne names
      = .error (.invalidEndpoints
          (names.filter (fun ep => !(endpointNames.contains ep))))
    ∧ (∀ n ∈ names, n ∉ endpointNames →
        n ∈ names.filter (fun ep => !(endpointNames.contains ep)))
    ∧ (∀ (resolveAccount2 : Except String String)
         (processOne2 : String → Except String EndpointResult),
        downloadEndpoints resolveAccount processOne names
          = downloadEndpoints resolveAccount2 processOne2 names) := by
  have hmemf : ∀ n ∈ names, n ∉ endpointNames →
      n ∈ names.filter (fun ep => !(endpointNames.contains ep)) := by
    intro n hn hnot
    refine List.mem_filter.mpr ⟨hn, ?_⟩
    simpa using hnot
  obtain ⟨n, hn, hnot⟩ := h
  have hne : names.filter (fun ep => !(endpointNames.contains ep)) ≠ [] := by
    intro hnil
    rw [hnil] at hmemf
    exact (List.not_mem_nil n) (hmemf n hn hnot)
  refine ⟨?_, hmemf, ?_⟩
  · simp only [downloadEndpoints, if_pos hne]
  · intro resolveAccount2 processOne2
    simp only [downloadEndpoints, if_pos hne]

/-- Witness for C8 at the claim's concrete scenario: requesting
`["calls", "bogus_endpoint"]` fails naming exactly `"bogus_endpoint"`,
whatever the network would have answered. -/
theorem C8_invalid_endpoints_fail_fast_witness :
    downloadEndpoints (Except.ok "acc") (fun _ => Except.error "network")
        ["calls", "bogus_endpoint"]
      = Except.error (DownloadError.invalidEndpoints ["bogus_endpoint"]) := by
  have h := (C8_invalid_endpoints_fail_fast ["calls", "bogus_endpoint"]
    (Except.ok "acc") (fun _ => Except.error "network")
    ⟨"bogus_endpoint", by decide, by decide⟩).1
  have hfil : (["calls", "bogus_endpoint"].filter
      (fun ep => !(endpointNames.contains ep))) = ["bogus_endpoint"] := rfl
  rw [hfil] at h
  exact h

/-- C9: `process_records` returns a list of exactly the same length and
order as its input, each element being the normalized form of the
corresponding raw record when the normalization attempt succeeds and the
raw record itself when it fails — no record is ever dropped. -/
theorem C9_process_records_preserves {α : Type} (normalize : α → Option α)
    (records : List α) :
    (processRecords normalize records).length = records.length
    ∧ ∀ i : Nat,
        (processRecords normalize records).get? i
          = (records.get? i).map (fun r => (normalize r).getD r) := by
  induction records with
  | nil => exact ⟨rfl, fun i => by simp [processRecords]⟩
  | cons r rest ih =>
    refine ⟨?_, ?_⟩
    · simp only [processRecords, List.length_cons, ih.1]
    · intro i
      cases i with
      | zero =>
        simp only [processRecords, List.get?_cons_zero, Option.map_some]
        cases hr : normalize r <;> simp [hr]
      | succ j =>
        simpa only [processRecords, List.get?_cons_succ] using ih.2 j

end CallRail
